import Mathlib

/-!
Verification of the stream/request ownership-and-event-translation layer of
`uvw` (`src/uvw/stream.hpp`), as a shallow embedding.

Native results (libuv return codes, `uv_try_write` results, address lookup
results) are oracle parameters of the embedded functions; "published events"
are returned as explicit lists instead of going through the external
publish/subscribe mechanism; buffer ownership is tracked by explicit
ownership values mirroring the `std::unique_ptr` moves in the source.
-/

namespace Uvw

/-- libuv's end-of-stream marker `UV_EOF` (negative, distinct from every
genuine error code used here only through its sign and inequality to 0). -/
def UV_EOF : Int := -4095

/-- Typed events published by the stream layer (the event kinds used in
`stream.hpp`). A `dataEvent` carries the buffer (identified by its base
address, as a `Nat`) and the byte count. -/
inductive Event where
  | dataEvent (bufBase : Nat) (len : Int)
  | endEvent
  | errorEvent (code : Int)
  | writeEvent
  | shutdownEvent
  | listenEvent
  deriving DecidableEq, Repr

/-- Event kinds, used as the keys of `once` listener registration. -/
inductive EventKind where
  | dataK
  | endK
  | errorK
  | writeK
  | shutdownK
  | listenK
  deriving DecidableEq, Repr

/-- Kind of an event. -/
def Event.kind : Event → EventKind
  | .dataEvent _ _ => .dataK
  | .endEvent => .endK
  | .errorEvent _ => .errorK
  | .writeEvent => .writeK
  | .shutdownEvent => .shutdownK
  | .listenEvent => .listenK

/-! ## Read completion (`Stream::readCallback`) -/

/-- Final disposition of the read buffer when the read-completion handler
returns. -/
inductive BufFate where
  | movedIntoEvent
  | releasedByHandler
  deriving DecidableEq, Repr

/-- Body of `Stream::readCallback`: `std::unique_ptr<const char[]> data{buf->base}`
takes ownership of the incoming buffer; the branch on `nread` publishes one
event, moving `data` into the `DataEvent` on the data branch. The second
component is the content still held by the local `unique_ptr` when the body
ends (`none` after the move, `some bufBase` otherwise). -/
def readBody (nread : Int) (bufBase : Nat) : Event × Option Nat :=
  if nread = UV_EOF then
    (.endEvent, some bufBase)
  else if nread > 0 then
    (.dataEvent bufBase nread, none)
  else
    (.errorEvent nread, some bufBase)

/-- Scope exit of `readCallback`: the local `unique_ptr`'s destructor releases
whatever buffer it still holds; a moved-from pointer holds nothing. -/
def scopeExit (remaining : Option Nat) : BufFate :=
  match remaining with
  | some _ => .releasedByHandler
  | none => .movedIntoEvent

/-- `Stream::readCallback`: the events published on the owning stream, and the
fate of the incoming buffer. -/
def readCallback (nread : Int) (bufBase : Nat) : List Event × BufFate :=
  let r := readBody nread bufBase
  ([r.1], scopeExit r.2)

/-! ## Listen readiness (`Stream::listenCallback`) -/

/-- `Stream::listenCallback`: `if(status)` publish `ErrorEvent{status}`, else
publish `ListenEvent{}`. -/
def listenCallback (status : Int) : List Event :=
  if status ≠ 0 then [.errorEvent status] else [.listenEvent]

/-! ## `Stream::tryWrite` -/

/-- `Stream::tryWrite(char *, ssize_t)`: `bw = uv_try_write(...)`; if `bw < 0`,
publish `ErrorEvent{bw}` on the stream itself and set `bw = 0`; return `bw`.
The native result is the oracle parameter. Returns the value handed back to
the caller and the events published on the stream. -/
def tryWrite (uvTryWriteResult : Int) : Int × List Event :=
  let bw := uvTryWriteResult
  if bw < 0 then (0, [.errorEvent bw]) else (bw, [])

/-- Disposition of the caller-released buffer when an owned-buffer overload
returns. -/
inductive OwnedBuf where
  | releasedOnReturn
  | retainedByCaller
  deriving DecidableEq, Repr

/-- Body of `Stream::tryWrite(std::unique_ptr<char[]>, ssize_t)`: it calls
`tryWrite(data.get(), length)` — `get()` does not give up ownership, so the
by-value `unique_ptr` parameter still holds the buffer when the body ends. -/
def tryWriteOwnedBody (uvTryWriteResult : Int) (bufBase : Nat) :
    (Int × List Event) × Option Nat :=
  (tryWrite uvTryWriteResult, some bufBase)

/-- `Stream::tryWrite(std::unique_ptr<char[]>, ssize_t)`: the result and
events of the raw overload, plus the buffer's disposition at return (the
parameter's destructor frees whatever it still holds). -/
def tryWriteOwned (uvTryWriteResult : Int) (bufBase : Nat) :
    (Int × List Event) × OwnedBuf :=
  let r := tryWriteOwnedBody uvTryWriteResult bufBase
  (r.1, match r.2 with
        | some _ => .releasedOnReturn
        | none => .retainedByCaller)

/-! ## `Stream::address` -/

/-- The `(name, port)` record produced by the address helper (`Addr` in
`util.hpp`; the source materialises it from a `std::pair<std::string,
unsigned int>` initialised to `{ "", 0 }`). -/
structure Addr where
  ip : String
  port : Nat
  deriving DecidableEq, Repr

/-- `Stream::address`: `addr` starts as `{ "", 0 }`; the native lookup `f`
runs first; only `if(!err)` does the name-formatting `Traits::NameFunc` run;
only `if(!err)` again is `addr` replaced by the resolved pair. The two native
results and the values they would resolve to are oracle parameters. Returns
the `Addr` handed back and the events published (there is no `publish` call
anywhere in the helper). -/
def address (lookupErr : Int) (nameErr : Int) (resolvedName : String)
    (resolvedPort : Nat) : Addr × List Event :=
  let addr : Addr := { ip := "", port := 0 }
  if lookupErr = 0 then
    if nameErr = 0 then
      ({ ip := resolvedName, port := resolvedPort }, [])
    else
      (addr, [])
  else
    (addr, [])

/-! ## Deferred operations: `Stream::write` / `Stream::shutdown`

The stream world: streams have identities, liveness is a map
`StreamId → Bool` standing for which `shared_ptr`-owned streams are still
alive when a deferred completion fires; `weak_ptr::lock` succeeds exactly on
the live ones. -/

abbrev StreamId := Nat

abbrev LoopId := Nat

/-- The state of a stream as far as `write`/`shutdown` read it: its own
identity (what `shared_from_this` refers to) and the loop it is bound to. -/
structure StreamState where
  id : StreamId
  loop : LoopId
  deriving DecidableEq, Repr

/-- `std::weak_ptr<T>::lock()`: yields the stream when it is still alive,
nothing otherwise. -/
def weakLock (alive : StreamId → Bool) (weak : StreamId) : Option StreamId :=
  if alive weak then some weak else none

/-- The forwarding listener registered by `Stream::write` and
`Stream::shutdown`: `auto ptr = weak.lock(); if(ptr) { ptr->publish(event); }`.
Returns the list of (target stream, event) publications it performs. -/
def forwardListener (alive : StreamId → Bool) (weak : StreamId)
    (event : Event) : List (StreamId × Event) :=
  match weakLock alive weak with
  | some ptr => [(ptr, event)]
  | none => []

/-- A freshly created request together with what the issuing function did to
it: the loop it was created on, the event kinds given a `once` forwarding
listener, the weak back-reference target, and whether the native call was
issued. -/
structure PendingRequest where
  reqLoop : LoopId
  onceListeners : List EventKind
  weakTarget : StreamId
  issued : Bool
  deriving DecidableEq, Repr

/-- `Stream::write(char *, ssize_t)`: creates a `details::Write` request via
`loop().resource<details::Write>()` (so bound to the stream's own loop),
registers the forwarding listener `once<ErrorEvent>` and `once<WriteEvent>`,
takes `weak = shared_from_this()`, then calls `write->write(...)`. -/
def Stream.write (s : StreamState) : PendingRequest :=
  { reqLoop := s.loop
    onceListeners := [.errorK, .writeK]
    weakTarget := s.id
    issued := true }

/-- `Stream::shutdown()`: creates a `details::Shutdown` request on the
stream's loop, registers the forwarding listener `once<ErrorEvent>` and
`once<ShutdownEvent>`, then calls `shutdown->shutdown(...)`. -/
def Stream.shutdown (s : StreamState) : PendingRequest :=
  { reqLoop := s.loop
    onceListeners := [.errorK, .shutdownK]
    weakTarget := s.id
    issued := true }

/-- Modelled from the spec: `Request::exec` completion for a `details::Write`
request (`request.hpp` is not among the sources). On status 0 the request
publishes its success event `WriteEvent` to its own listeners, on nonzero
status an `ErrorEvent` carrying the native status code (§4.1). -/
def writeRequestCompletion (status : Int) : Event :=
  if status = 0 then .writeEvent else .errorEvent status

/-- Modelled from the spec: `Request::exec` completion for a
`details::Shutdown` request (`request.hpp` is not among the sources). On
status 0 the request publishes `ShutdownEvent`, on nonzero status an
`ErrorEvent` carrying the code (§4.1). -/
def shutdownRequestCompletion (status : Int) : Event :=
  if status = 0 then .shutdownEvent else .errorEvent status

/-- Modelled from the spec: the publish/subscribe mechanism (`event.hpp`, an
external collaborator per §6) invokes the `once` listener registered for the
published event's kind, if one is registered. Dispatching a request's
completion event through its registered forwarding listeners yields the
publications performed on streams. -/
def dispatch (pr : PendingRequest) (alive : StreamId → Bool) (event : Event) :
    List (StreamId × Event) :=
  if event.kind ∈ pr.onceListeners then
    forwardListener alive pr.weakTarget event
  else
    []

/-- Completion of a pending write: the native status is translated by the
request, then dispatched through the listeners `Stream::write` registered. -/
def completeWrite (pr : PendingRequest) (alive : StreamId → Bool)
    (status : Int) : List (StreamId × Event) :=
  dispatch pr alive (writeRequestCompletion status)

/-- Completion of a pending shutdown: the native status is translated by the
request, then dispatched through the listeners `Stream::shutdown`
registered. -/
def completeShutdown (pr : PendingRequest) (alive : StreamId → Bool)
    (status : Int) : List (StreamId × Event) :=
  dispatch pr alive (shutdownRequestCompletion status)

/-! ## Owned-buffer write overload (`Stream::write(std::unique_ptr, ssize_t)`)

The overload's body is a straight-line sequence; we record it as a trace of
the lifetime-relevant steps, in the order they happen. -/

/-- Lifetime-relevant steps of `Stream::write(std::unique_ptr<char[]> data,
ssize_t length)`. -/
inductive OwnedWriteStep where
  | takeOwnership
  | issueNativeWrite
  | releaseBuffer
  deriving DecidableEq, Repr

/-- The overload's trace: the by-value `unique_ptr` parameter takes ownership
of the memory at entry; the body calls `write(data.get(), length)`, which
issues the native `uv_write`; the parameter's destructor releases the buffer
when the overload returns. -/
def writeOwnedTrace : List OwnedWriteStep :=
  [.takeOwnership, .issueNativeWrite, .releaseBuffer]

/-- The buffer is owned by the overload at position `i` of a trace when
ownership has been taken at or before `i` and not yet released. -/
def ownedAt (tr : List OwnedWriteStep) (i : Nat) : Bool :=
  decide (tr.indexOf .takeOwnership ≤ i) && decide (i < tr.indexOf .releaseBuffer)

/-! ## Claim theorems -/

/-- Claim C1: for every pending write or shutdown request whose owning stream
has been destroyed before the native completion fires, the forwarding
listener registered by `Stream::write` / `Stream::shutdown` publishes no
event on any object and performs no other action. -/
theorem dead_stream_relay_noop (s : StreamState) (alive : StreamId → Bool)
    (h : alive s.id = false) (event : Event) (status : Int) :
    forwardListener alive s.id event = [] ∧
    completeWrite (Stream.write s) alive status = [] ∧
    completeShutdown (Stream.shutdown s) alive status = [] := by
  have hfwd : ∀ e : Event, forwardListener alive s.id e = [] := by
    intro e
    unfold forwardListener weakLock
    simp [h]
  refine ⟨hfwd event, ?_, ?_⟩
  · unfold completeWrite dispatch Stream.write
    split
    · exact hfwd _
    · rfl
  · unfold completeShutdown dispatch Stream.shutdown
    split
    · exact hfwd _
    · rfl

/-- Witness for C1 at a concrete dead stream. -/
theorem dead_stream_relay_noop_witness :
    forwardListener (fun _ => false) 3 Event.writeEvent = [] ∧
    completeWrite (Stream.write { id := 3, loop := 0 }) (fun _ => false) 0 = [] ∧
    completeShutdown (Stream.shutdown { id := 3, loop := 0 }) (fun _ => false) 0 = [] :=
  dead_stream_relay_noop { id := 3, loop := 0 } (fun _ => false) rfl
    Event.writeEvent 0

/-- Claim C2: every read completion publishes exactly one event: `EndEvent`
on the end-of-stream marker, `DataEvent` carrying exactly the allocation
callback's buffer and the reported length when `nread > 0`, and `ErrorEvent`
carrying `nread` when `nread` is negative and not end-of-stream. -/
theorem readCallback_cases (nread : Int) (bufBase : Nat) :
    (readCallback nread bufBase).1.length = 1 ∧
    (nread = UV_EOF → (readCallback nread bufBase).1 = [Event.endEvent]) ∧
    (0 < nread → (readCallback nread bufBase).1 = [Event.dataEvent bufBase nread]) ∧
    (nread < 0 → nread ≠ UV_EOF →
      (readCallback nread bufBase).1 = [Event.errorEvent nread]) := by
  refine ⟨rfl, fun h => ?_, fun h => ?_, fun h h2 => ?_⟩
  · simp [readCallback, readBody, h]
  · have hne : nread ≠ UV_EOF := by unfold UV_EOF; omega
    simp [readCallback, readBody, hne, h]
  · have h3 : ¬ nread > 0 := by omega
    simp [readCallback, readBody, h2, h3]

/-- Witness for C2 at concrete completions. -/
theorem readCallback_cases_witness :
    (readCallback UV_EOF 7).1 = [Event.endEvent] ∧
    (readCallback 5 7).1 = [Event.dataEvent 7 5] ∧
    (readCallback (-104) 7).1 = [Event.errorEvent (-104)] :=
  ⟨(readCallback_cases UV_EOF 7).2.1 rfl,
   (readCallback_cases 5 7).2.2.1 (by decide),
   (readCallback_cases (-104) 7).2.2.2 (by decide) (by decide)⟩

/-- Claim C3: on every branch of the read-completion handler the incoming
buffer is consumed exactly once before the handler returns: moved into the
`DataEvent` on the data branch, released by the handler itself on every other
branch, never leaked and never owned twice. -/
theorem readCallback_buffer_consumed_once (nread : Int) (bufBase : Nat) :
    ((readCallback nread bufBase).2 = BufFate.movedIntoEvent ∨
      (readCallback nread bufBase).2 = BufFate.releasedByHandler) ∧
    ((readCallback nread bufBase).2 = BufFate.movedIntoEvent ↔
      (readCallback nread bufBase).1 = [Event.dataEvent bufBase nread]) ∧
    ((readCallback nread bufBase).2 = BufFate.releasedByHandler ↔
      ∀ b l, Event.dataEvent b l ∉ (readCallback nread bufBase).1) := by
  by_cases h1 : nread = UV_EOF
  · simp [readCallback, readBody, scopeExit, h1]
  · by_cases h2 : nread > 0
    · simp [readCallback, readBody, scopeExit, h1, h2]
    · simp [readCallback, readBody, scopeExit, h1, h2]

/-- Witness for C3 at a concrete data completion and a concrete error
completion. -/
theorem readCallback_buffer_consumed_once_witness :
    ((readCallback 5 7).2 = BufFate.movedIntoEvent ↔
      (readCallback 5 7).1 = [Event.dataEvent 7 5]) ∧
    ((readCallback (-104) 7).2 = BufFate.movedIntoEvent ∨
      (readCallback (-104) 7).2 = BufFate.releasedByHandler) :=
  ⟨(readCallback_buffer_consumed_once 5 7).2.1,
   (readCallback_buffer_consumed_once (-104) 7).1⟩

/-- Claim C4: `tryWrite` with a negative native result publishes exactly one
`ErrorEvent` carrying that value and returns 0; with a non-negative native
result it returns that value and publishes nothing; it never returns a
negative count. -/
theorem tryWrite_cases (uvTryWriteResult : Int) :
    (uvTryWriteResult < 0 →
      tryWrite uvTryWriteResult = (0, [Event.errorEvent uvTryWriteResult])) ∧
    (0 ≤ uvTryWriteResult →
      tryWrite uvTryWriteResult = (uvTryWriteResult, [])) ∧
    0 ≤ (tryWrite uvTryWriteResult).1 := by
  refine ⟨fun h => ?_, fun h => ?_, ?_⟩
  · simp [tryWrite, h]
  · have h2 : ¬ uvTryWriteResult < 0 := by omega
    simp [tryWrite, h2]
  · by_cases h : uvTryWriteResult < 0
    · simp [tryWrite, h]
    · simp [tryWrite, h]
      omega

/-- Witness for C4 at a failed and a successful native attempt. -/
theorem tryWrite_cases_witness :
    tryWrite (-12) = (0, [Event.errorEvent (-12)]) ∧ tryWrite 4 = (4, []) :=
  ⟨(tryWrite_cases (-12)).1 (by decide), (tryWrite_cases 4).2.1 (by decide)⟩

/-- Claim C5: `Stream::write` creates a fresh request on the stream's own
loop, registers exactly the two one-shot forwarding listeners (`ErrorEvent`
and `WriteEvent`) and issues the native write; a completion with status 0 on
a live stream publishes exactly one `WriteEvent` and no `ErrorEvent` on the
issuing stream, a nonzero-status completion exactly one `ErrorEvent` and no
`WriteEvent`. -/
theorem write_registers_and_forwards (s : StreamState)
    (alive : StreamId → Bool) (h : alive s.id = true) :
    (Stream.write s).reqLoop = s.loop ∧
    (Stream.write s).onceListeners = [EventKind.errorK, EventKind.writeK] ∧
    (Stream.write s).issued = true ∧
    completeWrite (Stream.write s) alive 0 = [(s.id, Event.writeEvent)] ∧
    (∀ status : Int, status ≠ 0 →
      completeWrite (Stream.write s) alive status =
        [(s.id, Event.errorEvent status)]) := by
  refine ⟨rfl, rfl, rfl, ?_, fun status hs => ?_⟩
  · unfold completeWrite dispatch writeRequestCompletion Stream.write
    simp [Event.kind, forwardListener, weakLock, h]
  · unfold completeWrite dispatch writeRequestCompletion Stream.write
    simp [Event.kind, forwardListener, weakLock, h, hs]

/-- Witness for C5 at a concrete live stream, with a successful and a failed
completion. -/
theorem write_registers_and_forwards_witness :
    completeWrite (Stream.write { id := 2, loop := 1 }) (fun _ => true) 0 =
      [(2, Event.writeEvent)] ∧
    completeWrite (Stream.write { id := 2, loop := 1 }) (fun _ => true) (-7) =
      [(2, Event.errorEvent (-7))] :=
  ⟨(write_registers_and_forwards { id := 2, loop := 1 } (fun _ => true)
      rfl).2.2.2.1,
   (write_registers_and_forwards { id := 2, loop := 1 } (fun _ => true)
      rfl).2.2.2.2 (-7) (by decide)⟩

/-- Claim C6: the owned-buffer `Stream::write` overload takes ownership of
the memory at entry and the buffer stays owned — hence alive — at the point
where the native write is issued; it is released only afterwards. -/
theorem write_owned_buffer_alive_during_native_call :
    OwnedWriteStep.takeOwnership ∈ writeOwnedTrace ∧
    writeOwnedTrace.indexOf OwnedWriteStep.takeOwnership <
      writeOwnedTrace.indexOf OwnedWriteStep.issueNativeWrite ∧
    writeOwnedTrace.indexOf OwnedWriteStep.issueNativeWrite <
      writeOwnedTrace.indexOf OwnedWriteStep.releaseBuffer ∧
    ownedAt writeOwnedTrace
      (writeOwnedTrace.indexOf OwnedWriteStep.issueNativeWrite) = true := by
  decide

/-- Claim C7: each incoming-connection readiness callback publishes exactly
one event on the stream: a `ListenEvent` when the native status is 0, an
`ErrorEvent` carrying the status when it is nonzero. -/
theorem listenCallback_cases (status : Int) :
    (status = 0 → listenCallback status = [Event.listenEvent]) ∧
    (status ≠ 0 → listenCallback status = [Event.errorEvent status]) ∧
    (listenCallback status).length = 1 := by
  refine ⟨fun h => ?_, fun h => ?_, ?_⟩
  · simp [listenCallback, h]
  · simp [listenCallback, h]
  · by_cases h : status = 0 <;> simp [listenCallback, h]

/-- Witness for C7 at status 0 and a concrete nonzero status. -/
theorem listenCallback_cases_witness :
    listenCallback 0 = [Event.listenEvent] ∧
    listenCallback (-3) = [Event.errorEvent (-3)] :=
  ⟨(listenCallback_cases 0).1 rfl, (listenCallback_cases (-3)).2.1 (by decide)⟩

/-- Claim C8: the address helper returns the empty result (empty name,
port 0) when the native lookup or the name-formatting step fails, returns the
resolved pair only when both succeed, and never publishes an event. -/
theorem address_cases (lookupErr nameErr : Int) (resolvedName : String)
    (resolvedPort : Nat) :
    (lookupErr ≠ 0 →
      address lookupErr nameErr resolvedName resolvedPort =
        ({ ip := "", port := 0 }, [])) ∧
    (lookupErr = 0 → nameErr ≠ 0 →
      address lookupErr nameErr resolvedName resolvedPort =
        ({ ip := "", port := 0 }, [])) ∧
    (lookupErr = 0 → nameErr = 0 →
      address lookupErr nameErr resolvedName resolvedPort =
        ({ ip := resolvedName, port := resolvedPort }, [])) ∧
    (address lookupErr nameErr resolvedName resolvedPort).2 = [] := by
  refine ⟨fun h => ?_, fun h1 h2 => ?_, fun h1 h2 => ?_, ?_⟩
  · simp [address, h]
  · simp [address, h1, h2]
  · simp [address, h1, h2]
  · by_cases h1 : lookupErr = 0 <;> by_cases h2 : nameErr = 0 <;>
      simp [address, h1, h2]

/-- Witness for C8 at a failed lookup, a failed name-formatting step and a
full success. -/
theorem address_cases_witness :
    address (-2) 0 "10.0.0.1" 80 = ({ ip := "", port := 0 }, []) ∧
    address 0 (-2) "10.0.0.1" 80 = ({ ip := "", port := 0 }, []) ∧
    address 0 0 "10.0.0.1" 80 = ({ ip := "10.0.0.1", port := 80 }, []) :=
  ⟨(address_cases (-2) 0 "10.0.0.1" 80).1 (by decide),
   (address_cases 0 (-2) "10.0.0.1" 80).2.1 rfl (by decide),
   (address_cases 0 0 "10.0.0.1" 80).2.2.1 rfl rfl⟩

/-- Claim C9: a read completion with `nread = 0` falls into the final branch
of the handler and publishes exactly one `ErrorEvent` carrying the code 0 —
not an `EndEvent`, a `DataEvent`, or nothing. -/
theorem readCallback_zero_nread (bufBase : Nat) :
    readCallback 0 bufBase = ([Event.errorEvent 0], BufFate.releasedByHandler) := by
  have h1 : (0 : Int) ≠ UV_EOF := by unfold UV_EOF; omega
  simp [readCallback, readBody, scopeExit, h1]

/-- Claim C10: the owned-buffer `tryWrite` overload forwards the raw
overload's result and events unchanged and releases the buffer when it
returns, on every outcome, so the caller never recovers ownership. -/
theorem tryWriteOwned_releases (uvTryWriteResult : Int) (bufBase : Nat) :
    (tryWriteOwned uvTryWriteResult bufBase).2 = OwnedBuf.releasedOnReturn ∧
    (tryWriteOwned uvTryWriteResult bufBase).2 ≠ OwnedBuf.retainedByCaller ∧
    (tryWriteOwned uvTryWriteResult bufBase).1 = tryWrite uvTryWriteResult := by
  refine ⟨rfl, by simp [tryWriteOwned, tryWriteOwnedBody], rfl⟩

end Uvw
